import Mathlib

/-!
Verification of the command-safety classification and batch-execution pipeline of
`terminal_assistant.py`.

The Python source is shallowly embedded below.  Strings are Lean `String`s; Python
string helpers (`lower`, `strip`, substring containment, `str.format`) are modelled
as executable functions on the underlying character lists; `shlex.split` (POSIX mode,
as used by `shlex.split`) is modelled as an explicit state machine; Python exceptions
are modelled with `Except String`, carrying the exception's message.  The operator's
console answers and the `subprocess.run` call are parameters of the embedded
functions (the answer strings, and a function from command text to
(returncode, stdout ++ stderr)); each executor model additionally reports whether
the underlying shell process was invoked.
-/

/-- Code point of the single-quote character. -/
def sqCh : Char := Char.ofNat 39

/-- Code point of the double-quote character. -/
def dqCh : Char := Char.ofNat 34

/-- Code point of the backslash character. -/
def bsCh : Char := Char.ofNat 92

/-- Model of Python `str.lower` for the ASCII inputs used by the program. -/
def pyLower (s : String) : String := ⟨s.data.map Char.toLower⟩

/-- The characters removed by Python `str.strip()` (ASCII whitespace). -/
def pyStripChars : List Char := [' ', '\t', '\n', '\r', '\x0b', '\x0c']

/-- Model of Python `str.strip()`: drop leading and trailing whitespace. -/
def pyStrip (s : String) : String :=
  ⟨((s.data.dropWhile (fun c => pyStripChars.contains c)).reverse.dropWhile
      (fun c => pyStripChars.contains c)).reverse⟩

/-- `strStarts n h` is true when character list `n` is a leading segment of `h`. -/
def strStarts : List Char → List Char → Bool
  | [], _ => true
  | _ :: _, [] => false
  | n :: ns, h :: hs => n = h && strStarts ns hs

/-- `strFind n h` is true when `n` occurs as a contiguous segment of `h`. -/
def strFind : List Char → List Char → Bool
  | n, [] => n.isEmpty
  | n, h :: hs => strStarts n (h :: hs) || strFind n hs

/-- Model of Python `needle in hay` substring containment. -/
def containsSub (needle hay : String) : Bool := strFind needle.data hay.data

/-- The whitespace characters of `shlex` (`shlex.whitespace`). -/
def isShlexSpace (c : Char) : Bool := c = ' ' || c = '\t' || c = '\r' || c = '\n'

/-- Lexer modes of the POSIX `shlex` state machine: outside quotes, inside single
quotes, inside double quotes, escape seen outside quotes, escape seen inside
double quotes. -/
inductive ShMode where
  | norm
  | squote
  | dquote
  | escN
  | escD

/-- Emit the current token (possibly empty, when quoting produced one) onto the
accumulator; tokens and the accumulator are kept reversed while lexing. -/
def flushTok (curr : Option (List Char)) (acc : List (List Char)) : List (List Char) :=
  match curr with
  | none => acc
  | some t => t.reverse :: acc

/-- The `shlex.split` state machine (POSIX rules, `whitespace_split`).  `curr` is
the token under construction (reversed); `acc` the completed tokens (reversed).
An unterminated quote or a trailing escape yields the `ValueError` message that
Python raises. -/
def shlexRun : List Char → ShMode → Option (List Char) → List (List Char) →
    Except String (List (List Char))
  | [], ShMode.norm, curr, acc => Except.ok ((flushTok curr acc).reverse)
  | [], ShMode.squote, _, _ => Except.error "No closing quotation"
  | [], ShMode.dquote, _, _ => Except.error "No closing quotation"
  | [], ShMode.escN, _, _ => Except.error "No escape character"
  | [], ShMode.escD, _, _ => Except.error "No escape character"
  | c :: cs, ShMode.norm, curr, acc =>
      if isShlexSpace c then shlexRun cs ShMode.norm none (flushTok curr acc)
      else if c = sqCh then shlexRun cs ShMode.squote (some (curr.getD [])) acc
      else if c = dqCh then shlexRun cs ShMode.dquote (some (curr.getD [])) acc
      else if c = bsCh then shlexRun cs ShMode.escN curr acc
      else shlexRun cs ShMode.norm (some (c :: curr.getD [])) acc
  | c :: cs, ShMode.escN, curr, acc => shlexRun cs ShMode.norm (some (c :: curr.getD [])) acc
  | c :: cs, ShMode.squote, curr, acc =>
      if c = sqCh then shlexRun cs ShMode.norm curr acc
      else shlexRun cs ShMode.squote (some (c :: curr.getD [])) acc
  | c :: cs, ShMode.dquote, curr, acc =>
      if c = dqCh then shlexRun cs ShMode.norm curr acc
      else if c = bsCh then shlexRun cs ShMode.escD curr acc
      else shlexRun cs ShMode.dquote (some (c :: curr.getD [])) acc
  | c :: cs, ShMode.escD, curr, acc =>
      if c = bsCh ∨ c = dqCh then shlexRun cs ShMode.dquote (some (c :: curr.getD [])) acc
      else shlexRun cs ShMode.dquote (some (c :: bsCh :: curr.getD [])) acc

/-- Model of `shlex.split(command)`: the token list, or the message of the
`ValueError` Python raises on malformed quoting. -/
def shlexSplit (s : String) : Except String (List String) :=
  match shlexRun s.data ShMode.norm none [] with
  | Except.error e => Except.error e
  | Except.ok ts => Except.ok (ts.map (fun t => String.mk t))

/-- The module-level `CRITICAL_COMMANDS` list. -/
def CRITICAL_COMMANDS : List String :=
  ["rm", "sudo", "mkfs", "dd", "format", "fdisk", "parted", "chmod", "chown",
   "passwd", "adduser", "deluser", "usermod", "groupmod", "mount", "umount",
   "shutdown", "reboot", "init", "systemctl"]

/-- The `dangerous_commands` list of the low-safety branch of `_is_command_critical`. -/
def dangerous_commands : List String :=
  ["rm -rf /", "mkfs", "dd if=", "shutdown", "halt", "poweroff"]

/-- Model of `TerminalAssistant._is_command_critical`: given the session's
`safety_level` and a command string, decide whether confirmation is required.
The high-safety branch calls `shlex.split` and indexes `command_parts[0]`;
exceptions escaping the method (a `ValueError` from `shlex` or the `IndexError`
on an empty token list) are the `Except.error` case, carrying `str(e)`. -/
def isCommandCritical (safetyLevel command : String) : Except String Bool :=
  if pyLower safetyLevel = "low" then
    Except.ok (dangerous_commands.any (fun d => containsSub d command))
  else if pyLower safetyLevel = "medium" then
    Except.ok (
      (containsSub "sudo" command &&
        (["rm", "mkfs", "dd"] : List String).any (fun c => containsSub c command)) ||
      (["shutdown", "reboot", "init"] : List String).any (fun c => containsSub c command))
  else
    match shlexSplit command with
    | Except.error e => Except.error e
    | Except.ok [] => Except.error "list index out of range"
    | Except.ok (base :: rest) =>
      match rest with
      | actual :: _ =>
        if base = "sudo" then
          Except.ok (CRITICAL_COMMANDS.contains actual || CRITICAL_COMMANDS.contains base)
        else
          Except.ok (CRITICAL_COMMANDS.contains base || containsSub "sudo" command)
      | [] => Except.ok (CRITICAL_COMMANDS.contains base || containsSub "sudo" command)

/-- The affirmative test applied to operator answers:
`input(...).strip().lower() in ["yes", "y"]`. -/
def isAffirmative (s : String) : Bool :=
  (["yes", "y"] : List String).contains (pyLower (pyStrip s))

/-- Model of `TerminalAssistant._execute_command`.  `run` models
`subprocess.run(command, shell=True, ...)` as the pair
(returncode, stdout ++ stderr); `resp` is the operator's answer to the
confirmation prompt (only consulted when the command is flagged).  The second
component of the result records whether the shell process was invoked.  An
exception inside the `try` block (here: one escaping `_is_command_critical`)
is caught and turned into `(1, "Error executing command: " ++ str(e))`. -/
def executeCommand (safetyLevel : String) (run : String → Int × String)
    (resp : String) (command : String) (confirmCritical : Bool) :
    (Int × String) × Bool :=
  let crit : Except String Bool :=
    if confirmCritical then isCommandCritical safetyLevel command else Except.ok false
  match crit with
  | Except.error e => ((1, "Error executing command: " ++ e), false)
  | Except.ok c =>
    if c && !(isAffirmative resp) then
      ((0, "Command execution cancelled (critical command)."), false)
    else
      (run command, true)

/-- Model of the command-execution loop of `TerminalAssistant.auto_install`
(stop-on-failure policy).  `ex` stands for `self._execute_command`, returning the
(returncode, output) pair for a command.  The first component is the `results`
list (each entry `(cmd, return_code, output)`, with the synthetic
`"INSTALLATION FAILED"` marker appended after the first failure); the second
records, in order, the commands actually handed to the executor. -/
def autoInstallRun (ex : String → Int × String) :
    List String → List (String × Int × String) × List String
  | [] => ([], [])
  | c :: rest =>
    let r := ex c
    if r.1 ≠ 0 then
      ([(c, r.1, r.2),
        ("INSTALLATION FAILED", r.1, "Stopping installation process due to error.")], [c])
    else
      let next := autoInstallRun ex rest
      ((c, r.1, r.2) :: next.1, c :: next.2)

/-- The success counter of both batch summaries:
`sum(1 for _, code, _ in results if code == 0)`. -/
def successCount (results : List (String × Int × String)) : Nat :=
  (results.filter (fun r => r.2.1 == 0)).length

/-- Model of the command-execution loop of `TerminalAssistant.fix_issue`
(ask-on-failure policy).  `ex` stands for `self._execute_command`; `ask n` is the
operator's answer to the n-th `"Continue with remaining commands? (yes/no): "`
prompt; the `Nat` argument counts the prompts asked so far.  Returns the
`results` list and the commands actually handed to the executor, in order. -/
def fixIssueRun (ex : String → Int × String) (ask : Nat → String) :
    Nat → List String → List (String × Int × String) × List String
  | _, [] => ([], [])
  | k, c :: rest =>
    let r := ex c
    if r.1 ≠ 0 then
      if isAffirmative (ask k) then
        let next := fixIssueRun ex ask (k + 1) rest
        ((c, r.1, r.2) :: next.1, c :: next.2)
      else
        ([(c, r.1, r.2)], [c])
    else
      let next := fixIssueRun ex ask k rest
      ((c, r.1, r.2) :: next.1, c :: next.2)

/-- The module-level `PACKAGE_MANAGERS` dictionary, as an association list in
source order. -/
def PACKAGE_MANAGERS : List (String × String) :=
  [("debian", "apt"), ("ubuntu", "apt"), ("linuxmint", "apt"), ("pop", "apt"),
   ("elementary", "apt"),
   ("fedora", "dnf"), ("rhel", "dnf"), ("centos", "dnf"), ("rocky", "dnf"),
   ("almalinux", "dnf"),
   ("arch", "pacman"), ("manjaro", "pacman"), ("endeavouros", "pacman"),
   ("opensuse", "zypper"), ("suse", "zypper"),
   ("darwin", "brew")]

/-- The module-level `INSTALL_COMMANDS` dictionary, as an association list in
source order (`\x7b\x7d` is the literal `str.format` substitution slot). -/
def INSTALL_COMMANDS : List (String × String) :=
  [("apt", "sudo apt update && sudo apt install -y \x7b\x7d"),
   ("dnf", "sudo dnf install -y \x7b\x7d"),
   ("pacman", "sudo pacman -S --noconfirm \x7b\x7d"),
   ("zypper", "sudo zypper install -y \x7b\x7d"),
   ("brew", "brew install \x7b\x7d"),
   ("pkg", "pkg install \x7b\x7d"),
   ("apk", "apk add \x7b\x7d"),
   ("yum", "sudo yum install -y \x7b\x7d"),
   ("emerge", "sudo emerge \x7b\x7d"),
   ("xbps", "sudo xbps-install -y \x7b\x7d")]

/-- Model of Python `dict.get(key)` on an association list. -/
def assocGet (k : String) : List (String × String) → Option String
  | [] => none
  | (a, b) :: rest => if k = a then some b else assocGet k rest

/-- The opening-brace character. -/
def obCh : Char := Char.ofNat 123

/-- The closing-brace character. -/
def cbCh : Char := Char.ofNat 125

/-- Replace each occurrence of the two-character slot `\x7b\x7d` by `p`: the
behaviour of Python `template.format(package)` on the templates of
`INSTALL_COMMANDS`, each of which contains exactly one such slot and no other
brace. -/
def formatSlot (p : List Char) : List Char → List Char
  | [] => []
  | [c] => [c]
  | c :: d :: rest =>
    if c = obCh ∧ d = cbCh then p ++ formatSlot p rest
    else c :: formatSlot p (d :: rest)

/-- Model of `cmd_template.format(package)` for the install-command templates. -/
def pyFormat (template package : String) : String :=
  ⟨formatSlot package.data template.data⟩

/-- Model of `SystemDetector.get_install_command`, keyed by the detector's
resolved package manager: look up the template, return `""` when there is none
(or it is empty), otherwise substitute the package name. -/
def get_install_command (packageManager package : String) : String :=
  match assocGet packageManager INSTALL_COMMANDS with
  | none => ""
  | some t => if t = "" then "" else pyFormat t package

/-- The host facts consumed by `SystemDetector._detect_package_manager`:
`platform.system().lower()`; the result of `distro.id()` (`none` when the call
raises); the raw value of the `ID=` field of `/etc/os-release` (`none` when the
file cannot be read or has no such line). -/
structure PlatformEnv where
  osName : String
  distroId : Option String
  osReleaseId : Option String

/-- Model of `SystemDetector._detect_package_manager`.  On Linux the
distribution identity is lowered (and, on the `/etc/os-release` fallback path,
stripped of whitespace and surrounding quote characters first, mirroring
`line.split('=')[1].strip().strip('"').lower()`) and looked up in
`PACKAGE_MANAGERS` with default `"apt"`; Darwin gives `"brew"`, Windows
`"choco"`, anything else `"unknown"`. -/
def detectPackageManager (env : PlatformEnv) : String :=
  if env.osName = "linux" then
    match env.distroId with
    | some d => (assocGet (pyLower d) PACKAGE_MANAGERS).getD "apt"
    | none =>
      match env.osReleaseId with
      | some raw =>
        (assocGet (pyLower ⟨((((pyStrip raw).data.dropWhile (fun c => c = dqCh)).reverse.dropWhile
            (fun c => c = dqCh)).reverse)⟩) PACKAGE_MANAGERS).getD "apt"
      | none => "apt"
  else if env.osName = "darwin" then "brew"
  else if env.osName = "windows" then "choco"
  else "unknown"

/-- The status word of the per-command summary blocks:
`"SUCCESS" if return_code == 0 else "FAILED"`. -/
def statusWord (returnCode : Int) : String :=
  if returnCode = 0 then "SUCCESS" else "FAILED"

/-- One per-command block of the `auto_install` summary: the command and status
lines, with the captured output attached when `return_code != 0`. -/
def autoInstallBlock (r : String × Int × String) : String :=
  "Command: " ++ r.1 ++ "\nStatus: " ++ statusWord r.2.1 ++ "\n" ++
    (if r.2.1 ≠ 0 then "Output:\n" ++ r.2.2 ++ "\n\n" else "")

/-- One per-command block of the `fix_issue` summary: the command and status
lines, with the captured output attached when `output` is non-empty
(`if output:`). -/
def fixIssueBlock (r : String × Int × String) : String :=
  "Command: " ++ r.1 ++ "\nStatus: " ++ statusWord r.2.1 ++ "\n" ++
    (if r.2.2 ≠ "" then "Output:\n" ++ r.2.2 ++ "\n\n" else "")

/-- The `result_str += ...` accumulation over the results list, rendering one
block per recorded outcome. -/
def summaryBlocks (blockFn : String × Int × String → String)
    (results : List (String × Int × String)) : String :=
  results.foldl (fun acc r => acc ++ blockFn r) ""

/-- Modelled after `_get_safety_icon`; the source returns three emoji literals
whose exact bytes no claim depends on, rendered here as ASCII tags. -/
def safetyIcon (safetyLevel : String) : String :=
  if pyLower safetyLevel = "high" then "[icon-high]"
  else if pyLower safetyLevel = "medium" then "[icon-medium]"
  else "[icon-low]"

/-- Model of `TerminalAssistant.set_safety_level`: normalise the input with
`.lower().strip()`, reject anything outside `high`/`medium`/`low` leaving the
stored level unchanged, otherwise store the normalised level.  Returns the new
stored level and the message. -/
def set_safety_level (currentLevel : String) (level : String) : String × String :=
  let l := pyStrip (pyLower level)
  if l ∉ (["high", "medium", "low"] : List String) then
    (currentLevel, "Invalid safety level: " ++ l ++ ". Valid options are: high, medium, low")
  else
    (l, "Safety level changed to: " ++ l ++ " " ++ safetyIcon l)

/-! ### Helper lemmas -/

/-- A successful association-list lookup returns one of the listed values. -/
theorem assocGet_mem {k v : String} :
    ∀ {l : List (String × String)}, assocGet k l = some v → v ∈ l.map Prod.snd := by
  intro l
  induction l with
  | nil => intro h; exact absurd h (by simp [assocGet])
  | cons p rest ih =>
    intro h
    obtain ⟨a, b⟩ := p
    by_cases hk : k = a
    · rw [assocGet, if_pos hk] at h
      injection h with h
      subst h
      exact List.mem_cons_self _ _
    · rw [assocGet, if_neg hk] at h
      exact List.mem_cons_of_mem _ (ih h)

/-- Lexing a run of shlex whitespace in normal mode with no token under
construction emits nothing. -/
theorem shlexRun_all_space (cs : List Char) :
    ∀ acc : List (List Char), cs.all isShlexSpace = true →
      shlexRun cs ShMode.norm none acc = Except.ok acc.reverse := by
  induction cs with
  | nil => intro acc _; rfl
  | cons c cs ih =>
    intro acc h
    rw [List.all_cons, Bool.and_eq_true] at h
    simp only [shlexRun, h.1, if_true]
    exact ih acc h.2

/-- `s ++ "" = s` for strings. -/
theorem strAppendEmpty (s : String) : s ++ "" = s := by
  cases s with
  | mk d => show String.mk (d ++ []) = String.mk d; rw [List.append_nil]

/-- `"" ++ s = s` for strings. -/
theorem strEmptyAppend (s : String) : "" ++ s = s := by
  cases s with
  | mk d => rfl

/-- The block accumulation `result_str += blockFn(r)` renders one block per
recorded outcome, in order. -/
theorem summaryBlocks_cons (blockFn : String × Int × String → String)
    (r : String × Int × String) (rest : List (String × Int × String)) :
    summaryBlocks blockFn (r :: rest) = blockFn r ++ summaryBlocks blockFn rest := by
  have haux : ∀ (l : List (String × Int × String)) (acc : String),
      l.foldl (fun a x => a ++ blockFn x) acc =
        acc ++ l.foldl (fun a x => a ++ blockFn x) "" := by
    intro l
    induction l with
    | nil => intro acc; exact (strAppendEmpty acc).symm
    | cons x xs ih =>
      intro acc
      rw [List.foldl, List.foldl, ih (acc ++ blockFn x), ih ("" ++ blockFn x),
        strEmptyAppend, String.append_assoc]
  show List.foldl _ "" (r :: rest) = _
  rw [List.foldl, haux rest ("" ++ blockFn r), strEmptyAppend]
  rfl

/-! ### Claim theorems -/

/-- Claim C1 (code bug evidence): the safety classifier is not monotone across
levels.  The command `halt` requires confirmation at level `low` (it is one of
the `dangerous_commands` substrings) but requires no confirmation at levels
`medium` and `high` (`halt` is in neither the medium-level substring sets nor
`CRITICAL_COMMANDS`), contradicting the spec's monotonicity property. -/
theorem C1_low_confirmation_not_monotone :
    isCommandCritical "low" "halt" = Except.ok true ∧
    isCommandCritical "medium" "halt" = Except.ok false ∧
    isCommandCritical "high" "halt" = Except.ok false :=
  ⟨rfl, rfl, rfl⟩

/-- Claim C2, counterexample to the claim as stated: on a command with
malformed quoting the high-safety classifier does not return the conservative
"confirmation required" value; the tokenization `ValueError` escapes
`_is_command_critical` itself (the `Except.error` case of the embedding). -/
theorem C2_claim_counterexample :
    isCommandCritical "high" "echo \"unterminated" =
      Except.error "No closing quotation" ∧
    isCommandCritical "high" "echo \"unterminated" ≠ Except.ok true := by
  refine ⟨rfl, fun hcontra => ?_⟩
  rw [show isCommandCritical "high" "echo \"unterminated" =
    Except.error "No closing quotation" from rfl] at hcontra
  exact Except.noConfusion hcontra

/-- Claim C2 as amended: for every command whose tokenization fails, the
high-safety classifier propagates the tokenization error to its caller
`_execute_command`, whose catch-all converts it into a status-1 error outcome;
the shell process is never invoked and no exception escapes the executor. -/
theorem C2_tokenization_failure_amended (cmd resp : String)
    (run : String → Int × String) (e : String)
    (h : shlexSplit cmd = Except.error e) :
    isCommandCritical "high" cmd = Except.error e ∧
    executeCommand "high" run resp cmd true =
      ((1, "Error executing command: " ++ e), false) := by
  have hc : isCommandCritical "high" cmd = Except.error e := by
    unfold isCommandCritical
    rw [if_neg (by decide), if_neg (by decide), h]
  exact ⟨hc, by simp [executeCommand, hc]⟩

/-- Claim C2 amended, witness at an unterminated-quote command. -/
theorem C2_tokenization_failure_amended_witness :
    isCommandCritical "high" "echo \"a b" = Except.error "No closing quotation" ∧
    executeCommand "high" (fun _ => (0, "")) "yes" "echo \"a b" true =
      ((1, "Error executing command: No closing quotation"), false) :=
  C2_tokenization_failure_amended "echo \"a b" "yes" (fun _ => (0, ""))
    "No closing quotation" rfl

/-- Claim C3: when a command is flagged by the classifier and the gate is on,
any operator response other than `yes`/`y` (after strip and lower) yields the
status-0 cancellation outcome and the shell process is never invoked. -/
theorem C3_negative_confirmation_cancels (safetyLevel resp cmd : String)
    (run : String → Int × String)
    (hcrit : isCommandCritical safetyLevel cmd = Except.ok true)
    (hresp : isAffirmative resp = false) :
    executeCommand safetyLevel run resp cmd true =
      ((0, "Command execution cancelled (critical command)."), false) := by
  simp [executeCommand, hcrit, hresp]

/-- Claim C3, witness: `rm -rf /tmp/x` is flagged at level high, the operator
answers `no`, and the executor cancels without running the shell. -/
theorem C3_negative_confirmation_cancels_witness :
    executeCommand "high" (fun _ => (0, "ran")) "no" "rm -rf /tmp/x" true =
      ((0, "Command execution cancelled (critical command)."), false) :=
  C3_negative_confirmation_cancels "high" "no" "rm -rf /tmp/x"
    (fun _ => (0, "ran")) rfl rfl

/-- Claim C4: in the stop-on-failure batch (`auto_install`), when every command
of the prefix `pre` succeeds and `b` fails, exactly `pre ++ [b]` are handed to
the executor in the caller-supplied order, nothing after `b` runs, the
synthetic `"INSTALLATION FAILED"` marker is appended to the results, and the
reported success count equals the length of the successful prefix. -/
theorem C4_stop_on_failure (ex : String → Int × String)
    (pre : List String) (b : String) (post : List String)
    (hpre : ∀ a ∈ pre, (ex a).1 = 0) (hb : (ex b).1 ≠ 0) :
    autoInstallRun ex (pre ++ b :: post) =
      (pre.map (fun a => (a, ex a)) ++
        [(b, ex b),
         ("INSTALLATION FAILED", (ex b).1, "Stopping installation process due to error.")],
       pre ++ [b]) ∧
    successCount (autoInstallRun ex (pre ++ b :: post)).1 = pre.length := by
  have hbeq : ((ex b).1 == 0) = false := by simp [hb]
  have hmain : autoInstallRun ex (pre ++ b :: post) =
      (pre.map (fun a => (a, ex a)) ++
        [(b, ex b),
         ("INSTALLATION FAILED", (ex b).1, "Stopping installation process due to error.")],
       pre ++ [b]) := by
    induction pre with
    | nil =>
      show autoInstallRun ex (b :: post) = _
      simp only [autoInstallRun]
      rw [if_pos hb]
      rfl
    | cons a pre ih =>
      have ha : (ex a).1 = 0 := hpre a (List.mem_cons_self a pre)
      have ih2 := ih (fun x hx => hpre x (List.mem_cons_of_mem a hx))
      show autoInstallRun ex (a :: (pre ++ b :: post)) = _
      simp only [autoInstallRun]
      rw [if_neg (by simp [ha]), ih2]
      rfl
  refine ⟨hmain, ?_⟩
  rw [hmain]
  unfold successCount
  rw [List.filter_append]
  have h1 : (pre.map (fun a => (a, ex a))).filter
      (fun r => r.2.1 == 0) = pre.map (fun a => (a, ex a)) := by
    apply List.filter_eq_self.mpr
    intro r hr
    obtain ⟨a, ha, rfl⟩ := List.mem_map.mp hr
    simp [hpre a ha]
  have h2 : ([(b, ex b),
      ("INSTALLATION FAILED", (ex b).1, "Stopping installation process due to error.")] :
        List (String × Int × String)).filter (fun r => r.2.1 == 0) = [] := by
    simp [List.filter, hbeq]
  rw [h1, h2, List.append_nil, List.length_map]

/-- Claim C4, witness: commands `[A, B, C]` with `A` succeeding and `B`
failing execute exactly `A` then `B`, and the success count is 1. -/
def exW4 : String → Int × String :=
  fun c => if c = "a" then (0, "okA") else if c = "b" then (2, "errB") else (0, "okC")

/-- Claim C4, witness theorem. -/
theorem C4_stop_on_failure_witness :
    (autoInstallRun exW4 ["a", "b", "c"]).2 = ["a", "b"] ∧
    successCount (autoInstallRun exW4 ["a", "b", "c"]).1 = 1 := by
  have h := C4_stop_on_failure exW4 ["a"] "b" ["c"] (by decide) (by decide)
  rw [show (["a", "b", "c"] : List String) = ["a"] ++ "b" :: ["c"] from rfl]
  exact ⟨by rw [h.1]; rfl, by rw [h.2]; rfl⟩

/-- Claim C5: in the ask-on-failure batch (`fix_issue`), if the operator's
answer to every continue prompt is affirmative then every command of the
sequence is handed to the executor in order regardless of failures; and after
a failed command a non-affirmative answer stops the batch at that point (no
later command runs). -/
theorem C5_ask_on_failure (ex : String → Int × String) (ask : Nat → String) :
    ((∀ n, isAffirmative (ask n) = true) →
      ∀ k cmds, (fixIssueRun ex ask k cmds).2 = cmds) ∧
    (∀ k A rest, (ex A).1 ≠ 0 → isAffirmative (ask k) = false →
      fixIssueRun ex ask k (A :: rest) = ([(A, (ex A).1, (ex A).2)], [A])) := by
  constructor
  · intro hall k cmds
    induction cmds generalizing k with
    | nil => rfl
    | cons c rest ih =>
      by_cases hc : (ex c).1 = 0
      · simp [fixIssueRun, hc, ih]
      · simp [fixIssueRun, hc, hall k, ih]
  · intro k A rest hA hneg
    simp [fixIssueRun, hA, hneg]

/-- Executor double for the C5 witness: `a` fails, everything else succeeds. -/
def exW5 : String → Int × String := fun c => if c = "a" then (1, "boom") else (0, "ok")

/-- Claim C5, witness: with `A` failing and the operator answering `yes`,
commands `B` and `C` both execute. -/
theorem C5_ask_on_failure_witness :
    (exW5 "a").1 ≠ 0 ∧
    (fixIssueRun exW5 (fun _ => "yes") 0 ["a", "b", "c"]).2 = ["a", "b", "c"] :=
  ⟨by decide, (C5_ask_on_failure exW5 (fun _ => "yes")).1 (fun _ => rfl) 0 ["a", "b", "c"]⟩

/-- Claim C6, counterexample to the claim as stated: on a Windows host the
resolver returns `choco`, which is outside the claimed fixed identifier set,
and Windows is a non-Linux, non-Darwin OS family that does not resolve to
`unknown`. -/
theorem C6_claim_counterexample :
    detectPackageManager ⟨"windows", none, none⟩ = "choco" ∧
    "choco" ∉ (["apt", "dnf", "pacman", "zypper", "brew", "pkg", "apk", "yum",
      "emerge", "xbps", "unknown"] : List String) ∧
    detectPackageManager ⟨"windows", none, none⟩ ≠ "unknown" :=
  ⟨rfl, by decide, by decide⟩

/-- Claim C6 as amended: the resolver only ever returns a member of
`{apt, dnf, pacman, zypper, brew, choco, unknown}` (it is a pure function of
the detected OS family and distribution identity by construction); every
unrecognized Linux distribution resolves to `apt`; and every OS family other
than linux, darwin and windows resolves to `unknown` (windows resolves to
`choco`). -/
theorem C6_package_manager_amended (env : PlatformEnv) :
    detectPackageManager env ∈
      (["apt", "dnf", "pacman", "zypper", "brew", "choco", "unknown"] : List String) ∧
    (env.osName ∉ (["linux", "darwin", "windows"] : List String) →
      detectPackageManager env = "unknown") ∧
    (∀ d, env.osName = "linux" → env.distroId = some d →
      assocGet (pyLower d) PACKAGE_MANAGERS = none →
      detectPackageManager env = "apt") := by
  have hvals : ∀ x ∈ PACKAGE_MANAGERS.map Prod.snd,
      x ∈ (["apt", "dnf", "pacman", "zypper", "brew", "choco", "unknown"] : List String) := by
    decide
  refine ⟨?_, ?_, ?_⟩
  · unfold detectPackageManager
    by_cases h1 : env.osName = "linux"
    · rw [if_pos h1]
      cases hd : env.distroId with
      | some d =>
        cases hg : assocGet (pyLower d) PACKAGE_MANAGERS with
        | none => simp [hg]
        | some v => simpa [hg] using hvals v (assocGet_mem hg)
      | none =>
        cases hr : env.osReleaseId with
        | some raw =>
          cases hg : assocGet (pyLower ⟨((((pyStrip raw).data.dropWhile
              (fun c => c = dqCh)).reverse.dropWhile (fun c => c = dqCh)).reverse)⟩)
              PACKAGE_MANAGERS with
          | none => simp [hg]
          | some v => simpa [hg] using hvals v (assocGet_mem hg)
        | none => simp
    · rw [if_neg h1]
      by_cases h2 : env.osName = "darwin"
      · simp [h2]
      · rw [if_neg h2]
        by_cases h3 : env.osName = "windows"
        · simp [h3]
        · simp [h3]
  · intro hnot
    simp only [List.mem_cons, List.not_mem_nil, or_false, not_or] at hnot
    simp [detectPackageManager, hnot.1, hnot.2.1, hnot.2.2]
  · intro d h1 h2 hg
    simp [detectPackageManager, h1, h2, hg]

/-- Claim C6 amended, witness: an unrecognized OS family resolves to `unknown`
and an unrecognized Linux distribution resolves to `apt`. -/
theorem C6_package_manager_amended_witness :
    detectPackageManager ⟨"plan9", none, none⟩ = "unknown" ∧
    detectPackageManager ⟨"linux", some "gentoo", none⟩ = "apt" :=
  ⟨(C6_package_manager_amended ⟨"plan9", none, none⟩).2.1 (by decide),
   (C6_package_manager_amended ⟨"linux", some "gentoo", none⟩).2.2 "gentoo" rfl rfl rfl⟩

/-- Claim C7, counterexample to the claim as stated: in the `fix_issue` summary
a command with status SUCCESS still gets its captured output attached whenever
that output is non-empty (`if output:`), so output is not reserved to FAILED
commands. -/
theorem C7_claim_counterexample :
    summaryBlocks fixIssueBlock [("ls", 0, "file.txt\n")] =
      "Command: ls\nStatus: SUCCESS\nOutput:\nfile.txt\n\n\n" ∧
    containsSub "Output:" (summaryBlocks fixIssueBlock [("ls", 0, "file.txt\n")]) = true ∧
    statusWord 0 = "SUCCESS" :=
  ⟨rfl, rfl, rfl⟩

/-- Claim C7 as amended: every attempted command produces a
`"Command: <cmd>\nStatus: SUCCESS|FAILED"` block, blocks are rendered for every
recorded outcome in order; in the `auto_install` summary the captured output is
attached exactly to the failed commands, while in the `fix_issue` summary it is
attached exactly to the commands with non-empty captured output — including
successful ones. -/
theorem C7_summary_blocks_amended (cmd out : String) (code : Int) :
    (code = 0 → autoInstallBlock (cmd, code, out) =
      "Command: " ++ cmd ++ "\nStatus: SUCCESS\n") ∧
    (code ≠ 0 → autoInstallBlock (cmd, code, out) =
      "Command: " ++ cmd ++ "\nStatus: FAILED\nOutput:\n" ++ out ++ "\n\n") ∧
    (out = "" → fixIssueBlock (cmd, code, out) =
      "Command: " ++ cmd ++ "\nStatus: " ++ statusWord code ++ "\n") ∧
    (out ≠ "" → fixIssueBlock (cmd, code, out) =
      "Command: " ++ cmd ++ "\nStatus: " ++ statusWord code ++ "\nOutput:\n" ++ out ++ "\n\n") ∧
    (∀ (blockFn : String × Int × String → String) (r : String × Int × String)
        (rest : List (String × Int × String)),
      summaryBlocks blockFn (r :: rest) = blockFn r ++ summaryBlocks blockFn rest) := by
  refine ⟨?_, ?_, ?_, ?_, fun blockFn r rest => summaryBlocks_cons blockFn r rest⟩
  · intro h
    have hs : statusWord code = "SUCCESS" := by simp [statusWord, h]
    simp only [autoInstallBlock, hs, h]
    simp only [String.append_assoc]
    rfl
  · intro h
    have hs : statusWord code = "FAILED" := by simp [statusWord, h]
    simp only [autoInstallBlock, hs, if_pos h]
    simp only [String.append_assoc]
    rfl
  · intro h
    simp only [fixIssueBlock, h]
    simp [String.append_assoc, strAppendEmpty]
  · intro h
    simp only [fixIssueBlock, if_pos h]
    simp only [String.append_assoc]
    rfl

/-- Claim C7 amended, witness: a successful command's block in `auto_install`
carries no output, while the same outcome in `fix_issue` carries its non-empty
output. -/
theorem C7_summary_blocks_amended_witness :
    autoInstallBlock ("ls", 0, "file.txt\n") = "Command: ls\nStatus: SUCCESS\n" ∧
    fixIssueBlock ("ls", 0, "file.txt\n") =
      "Command: ls\nStatus: SUCCESS\nOutput:\nfile.txt\n\n\n" :=
  ⟨(C7_summary_blocks_amended "ls" "file.txt\n" 0).1 rfl,
   (C7_summary_blocks_amended "ls" "file.txt\n" 0).2.2.2.1 (by decide)⟩

/-- Claim C8: `get_install_command` substitutes the package name into the
template's single substitution slot — for `apt` and `vim` it yields exactly
`sudo apt update && sudo apt install -y vim` — and returns the empty string for
every package when the resolved package manager has no template in
`INSTALL_COMMANDS`. -/
theorem C8_install_command :
    get_install_command "apt" "vim" = "sudo apt update && sudo apt install -y vim" ∧
    ∀ pm package, assocGet pm INSTALL_COMMANDS = none →
      get_install_command pm package = "" := by
  refine ⟨rfl, fun pm package h => ?_⟩
  unfold get_install_command
  rw [h]

/-- Claim C8, witness: `choco` (the Windows resolution) has no install
template, so the install command is empty. -/
theorem C8_install_command_witness :
    assocGet "choco" INSTALL_COMMANDS = none ∧
    get_install_command "choco" "vim" = "" :=
  ⟨rfl, C8_install_command.2 "choco" "vim" rfl⟩

/-- Claim C9: any input whose `.lower().strip()` normalisation is not one of
`high`, `medium`, `low` is rejected with the invalid-level message and leaves
the stored safety level unchanged; and the operation only ever stores the old
level or one of the three valid values. -/
theorem C9_safety_level_validation (cur input : String) :
    (pyStrip (pyLower input) ∉ (["high", "medium", "low"] : List String) →
      set_safety_level cur input =
        (cur, "Invalid safety level: " ++ pyStrip (pyLower input) ++
          ". Valid options are: high, medium, low")) ∧
    ((set_safety_level cur input).1 = cur ∨
      (set_safety_level cur input).1 ∈ (["high", "medium", "low"] : List String)) := by
  constructor
  · intro h
    simp [set_safety_level, h]
  · by_cases h : pyStrip (pyLower input) ∈ (["high", "medium", "low"] : List String)
    · right
      simp [set_safety_level, h]
    · left
      simp [set_safety_level, h]

/-- Claim C9, witness: `banana` is rejected and the stored level stays `high`. -/
theorem C9_safety_level_validation_witness :
    set_safety_level "high" "banana" =
      ("high", "Invalid safety level: banana. Valid options are: high, medium, low") :=
  (C9_safety_level_validation "high" "banana").1 (by decide)

/-- Claim C10: an empty or whitespace-only command tokenizes to the empty list,
indexing its first element raises `IndexError`, and at safety level high with
the gate on the executor's catch-all converts this into a status-1 error
outcome before any shell process is spawned. -/
theorem C10_empty_command_error (cmd resp : String) (run : String → Int × String)
    (h : cmd.data.all isShlexSpace = true) :
    shlexSplit cmd = Except.ok [] ∧
    isCommandCritical "high" cmd = Except.error "list index out of range" ∧
    executeCommand "high" run resp cmd true =
      ((1, "Error executing command: list index out of range"), false) := by
  have hs : shlexSplit cmd = Except.ok [] := by
    unfold shlexSplit
    rw [shlexRun_all_space cmd.data [] h]
    rfl
  have hc : isCommandCritical "high" cmd = Except.error "list index out of range" := by
    unfold isCommandCritical
    rw [if_neg (by decide), if_neg (by decide), hs]
  exact ⟨hs, hc, by simp [executeCommand, hc]⟩

/-- Claim C10, witness at the whitespace-only command `"   "`. -/
theorem C10_empty_command_error_witness :
    executeCommand "high" (fun _ => (0, "ran")) "yes" "   " true =
      ((1, "Error executing command: list index out of range"), false) :=
  (C10_empty_command_error "   " "yes" (fun _ => (0, "ran")) rfl).2.2
